import Mathlib

/-!
Verification of the password-manager storage and query engine.

Shallow embedding of the core modules:
* `src/core/search_engine.py` — relevance ranking and domain matching;
* `src/core/database.py`      — the SQLite-backed record store;
* `src/core/data_handler.py`  — import validation.

Python strings are modelled by Lean `String`; `str.lower` is modelled for the
ASCII range (`Char.toLower`), which covers every comparison the claims touch.
SQLite `NULL` is modelled by `Option`.
-/

namespace PM

/-! ### Python string-operation models -/

/-- Model of Python `str.lower()` (ASCII range). -/
def pyLower (s : String) : String :=
  String.mk (s.data.map Char.toLower)

/-- Characters removed by Python `str.strip()` with no argument. -/
def isPySpace (c : Char) : Bool :=
  c = ' ' || c = '\t' || c = '\n' || c = '\r' || c = '\x0b' || c = '\x0c'

/-- Model of Python `str.strip()`. -/
def pyStrip (s : String) : String :=
  String.mk (((s.data.dropWhile isPySpace).reverse.dropWhile isPySpace).reverse)

/-- Model of Python `str.startswith(p)`. -/
def startsWithStr (s p : String) : Bool :=
  p.data.isPrefixOf s.data

/-- Model of Python `str.endswith(p)`. -/
def endsWithStr (s p : String) : Bool :=
  p.data.isSuffixOf s.data

/-- Contiguous-sublist test on character lists. -/
def containsSub (needle : List Char) : List Char → Bool
  | [] => needle.isEmpty
  | c :: rest => needle.isPrefixOf (c :: rest) || containsSub needle rest

/-- Model of Python `needle in hay` on strings. -/
def containsStr (hay needle : String) : Bool :=
  containsSub needle.data hay.data

/-- Model of Python `s.replace(' ', '')`. -/
def stripSpaces (s : String) : String :=
  String.mk (s.data.filter (fun c => c ≠ ' '))

/-! ### Search engine (`src/core/search_engine.py`) with its configuration
(`src/core/config.py`, class `SearchConfig`) -/

/-- Constant `SearchConfig.FIELD_WEIGHTS` from `src/core/config.py`. -/
def FIELD_WEIGHTS : List (String × Nat) :=
  [("site_name", 10), ("login_account", 8), ("email", 7),
   ("phone", 6), ("url", 5), ("notes", 3)]

/-- Constant `SearchConfig.MIN_KEYWORD_LENGTH`. -/
def MIN_KEYWORD_LENGTH : Nat := 1

/-- Constant `SearchConfig.MAX_RESULTS`. -/
def MAX_RESULTS : Nat := 100

/-- Lookup `self.field_weights.get(field_name, 1)` — dict get with default 1. -/
def weightOf (field_name : String) : Nat :=
  ((FIELD_WEIGHTS.find? (fun kv => kv.1 == field_name)).map Prod.snd).getD 1

/-- The in-memory record shape (`src/core/models.py`, class `Password`).
Python attribute values may be `None` (e.g. when loaded from a `NULL`
column), so string attributes are modelled as `Option String`.
`custom_fields` is a Python dict, modelled as an association list in
insertion order. -/
structure Password where
  id : Option Nat := none
  site_name : Option String := some ""
  url : Option String := some ""
  login_account : Option String := some ""
  password : Option String := some ""
  phone : Option String := some ""
  email : Option String := some ""
  category : Option String := some ""
  notes : Option String := some ""
  register_date : Option String := none
  custom_fields : List (String × String) := []
deriving DecidableEq, Repr

/-- Embedding of `SearchEngine._fuzzy_match`: substring test after removing spaces, or
the character-set subset test (`set(keyword).issubset(set(text))`). -/
def fuzzy_match (keyword text : String) : Bool :=
  if containsStr (stripSpaces text) (stripSpaces keyword) then true
  else if keyword.data.all (fun c => text.data.contains c) then true
  else false

/-- The `fields` dict built inside `_calculate_relevance_score`
(`pwd.site_name or ''` etc.), in insertion order. -/
def scoreFields (p : Password) : List (String × String) :=
  [("site_name", p.site_name.getD ""),
   ("login_account", p.login_account.getD ""),
   ("email", p.email.getD ""),
   ("phone", p.phone.getD ""),
   ("url", p.url.getD ""),
   ("notes", p.notes.getD "")]

/-- Loop body of `_calculate_relevance_score`: one field's branch ladder,
accumulating into `score`.  `if not field_value: continue` leaves the
accumulator unchanged. -/
def scoreStep (keyword : String) (score : Nat) (kv : String × String) : Nat :=
  if kv.2 = "" then score
  else
    let field_value_lower := pyLower kv.2
    let weight := weightOf kv.1
    if keyword = field_value_lower then score + weight * 10
    else if startsWithStr field_value_lower keyword then score + weight * 5
    else if containsStr field_value_lower keyword then score + weight * 3
    else if fuzzy_match keyword field_value_lower then score + weight * 1
    else score

/-- Embedding of `SearchEngine._calculate_relevance_score` (the Python score is a float
but every contribution is a natural number, so the total is modelled in
`Nat`). -/
def calculate_relevance_score (p : Password) (keyword : String) : Nat :=
  (scoreFields p).foldl (scoreStep keyword) 0

/-- Spec-side per-field contribution, written from the specification's
words: `weight × 10` on an exact full-field match, `weight × 5` on a
prefix match, `weight × 3` on a substring match, `weight × 1` on a fuzzy
match, otherwise 0; an empty field contributes 0. -/
def specFieldScore (keyword field : String) (weight : Nat) : Nat :=
  if field = "" then 0
  else if keyword = pyLower field then weight * 10
  else if startsWithStr (pyLower field) keyword then weight * 5
  else if containsStr (pyLower field) keyword then weight * 3
  else if fuzzy_match keyword (pyLower field) then weight * 1
  else 0

/-- The `scored_passwords` list built by `SearchEngine.search_passwords`:
each record with a positive score, paired with its score, in input
order. -/
def scoredList (passwords : List Password) (kw : String) :
    List (Password × Nat) :=
  passwords.filterMap (fun p =>
    let s := calculate_relevance_score p kw
    if 0 < s then some (p, s) else none)

/-- Embedding of `SearchEngine.search_passwords`: normalize the keyword, score every
record, keep positive scores, sort by score descending (Python
`list.sort` is stable; with `reverse=True` equal keys keep their original
relative order, which is exactly `List.insertionSort` under the relation
`b.2 ≤ a.2`), and truncate to `MAX_RESULTS`. -/
def search_passwords_engine (passwords : List Password) (keyword : String) :
    List Password :=
  if keyword = "" then passwords
  else
    let kw := pyLower (pyStrip keyword)
    if kw.length < MIN_KEYWORD_LENGTH then passwords
    else
      let sorted := (scoredList passwords kw).insertionSort (fun a b => b.2 ≤ a.2)
      (sorted.map Prod.fst).take MAX_RESULTS

/-- Valid scheme characters for the model of `urllib.parse.urlparse`. -/
def schemeChar (c : Char) : Bool :=
  c.isAlpha || c.isDigit || c = '+' || c = '-' || c = '.'

/-- Split a character list at its first `':'`. -/
def splitFirstColon : List Char → Option (List Char × List Char)
  | [] => none
  | c :: rest =>
    if c = ':' then some ([], rest)
    else
      match splitFirstColon rest with
      | some (pre, post) => some (c :: pre, post)
      | none => none

/-- The part of `netloc` after its last `'@'` (Python
`netloc.rpartition('@')[2]`). -/
def afterLastAt (netloc : List Char) : List Char :=
  (netloc.reverse.takeWhile (fun c => c ≠ '@')).reverse

/-- Model of `urllib.parse.urlparse(d).hostname` for an already
lowercased string: strip a syntactically valid scheme, require the
remainder to start with `"//"`, cut the netloc at the first of `/?#`,
drop userinfo and a port.  IPv6 bracket hosts are not modelled. -/
def urlparseHostname (d : String) : Option String :=
  let l := d.data
  let rest : List Char :=
    match splitFirstColon l with
    | some (scheme, after) =>
      if (match scheme with | c :: _ => c.isAlpha | [] => false)
          && scheme.all schemeChar then after
      else l
    | none => l
  match rest with
  | '/' :: '/' :: netlocAndMore =>
    let netloc := netlocAndMore.takeWhile
      (fun c => !(c = '/' || c = '?' || c = '#'))
    let host := (afterLastAt netloc).takeWhile (fun c => c ≠ ':')
    if host.isEmpty then none else some (String.mk host)
  | _ => none

/-- Embedding of `SearchEngine._normalize_domain`: lowercase and trim, extract the host
when a scheme separator is present (`parsed.hostname or domain`), then
strip a leading `"www."`. -/
def normalize_domain (domain : String) : String :=
  let d := pyStrip (pyLower domain)
  let d := if containsStr d "://" then (urlparseHostname d).getD d else d
  if startsWithStr d "www." then String.mk (d.data.drop 4) else d

/-- Embedding of `SearchEngine.match_domain`: false on an empty argument; after
normalization, true exactly for identical domains or a strict
parent/sub-domain relationship (suffix test with a `"."` separator). -/
def match_domain (domain1 domain2 : String) : Bool :=
  if domain1 = "" ∨ domain2 = "" then false
  else
    let d1 := normalize_domain domain1
    let d2 := normalize_domain domain2
    if d1 = d2 then true
    else if endsWithStr d1 ("." ++ d2) || endsWithStr d2 ("." ++ d1) then true
    else false

/-! ### Record store (`src/core/database.py`)

Tables are modelled as lists of rows in insertion order.  Timestamps
(`CURRENT_TIMESTAMP`) are abstract `Nat` values supplied by the caller as a
`now` parameter.  Every mutating method in the source wraps its work in
`try: ... commit / except: rollback; raise`, so a storage failure leaves
the state unchanged and is re-raised; this is modelled by a
`fault : Option SqlError` injection parameter checked at the start of the
operation (all-or-nothing semantics). -/

/-- The `sqlite3` error kinds the store can raise. -/
inductive SqlError where
  | integrityError : String → SqlError
  | operationalError : String → SqlError
deriving DecidableEq, Repr

/-- A row of the `passwords` table.  `site_name` and `password` are
`NOT NULL` columns; the nullable columns are `Option`s. -/
structure PasswordRow where
  id : Nat
  site_name : String
  url : Option String := none
  login_account : Option String := none
  password : String
  phone : Option String := none
  email : Option String := none
  category : Option String := none
  notes : Option String := none
  register_date : Option String := none
  created_at : Nat := 0
  updated_at : Nat := 0
  is_deleted : Bool := false
  deleted_at : Option Nat := none
deriving DecidableEq, Repr

/-- A row of the `categories` table. -/
structure CategoryRow where
  id : Nat
  name : String
  color : Option String := none
  sort_order : Option Nat := none
  is_default : Bool := false
  created_at : Nat := 0
deriving DecidableEq, Repr

/-- A row of the `custom_field_definitions` table (`field_name` is
`UNIQUE`). -/
structure CustomFieldRow where
  id : Nat
  field_name : String
  field_type : String := "text"
  sort_order : Option Nat := none
  created_at : Nat := 0
deriving DecidableEq, Repr

/-- A row of the `custom_field_values` table (the surrogate `id` column is
not consulted anywhere and is omitted). -/
structure CustomFieldValueRow where
  password_id : Nat
  field_id : Nat
  value : String
deriving DecidableEq, Repr

/-- A row of the `modification_history` table (surrogate `id` omitted). -/
structure ModificationRow where
  password_id : Nat
  field_name : String
  old_value : String
  new_value : String
  modified_at : Nat
deriving DecidableEq, Repr

/-- The store state: the tables the claims touch, plus the `passwords`
`AUTOINCREMENT` counter. -/
structure DBState where
  passwords : List PasswordRow := []
  categories : List CategoryRow := []
  custom_field_definitions : List CustomFieldRow := []
  custom_field_values : List CustomFieldValueRow := []
  modification_history : List ModificationRow := []
  next_password_id : Nat := 1
deriving DecidableEq, Repr

/-- Embedding of `Database._save_custom_field_values`: for each supplied name/value in
dict order, look the name up in `custom_field_definitions`; insert a value
row when a definition exists, silently skip otherwise. -/
def save_custom_field_values (defs : List CustomFieldRow)
    (vals : List CustomFieldValueRow) (password_id : Nat)
    (custom_fields : List (String × String)) : List CustomFieldValueRow :=
  custom_fields.foldl (fun acc nv =>
    match defs.find? (fun d => d.field_name == nv.1) with
    | some d => acc ++ [⟨password_id, d.id, nv.2⟩]
    | none => acc) vals

/-- The row written by `add_password`'s `INSERT` (the two `NOT NULL`
columns are known to be non-`NULL` when this is reached; `created_at`,
`updated_at` take `CURRENT_TIMESTAMP`, `is_deleted` defaults to 0). -/
def insertedRow (pid now : Nat) (p : Password) : PasswordRow :=
  { id := pid
    site_name := p.site_name.getD ""
    url := p.url
    login_account := p.login_account
    password := p.password.getD ""
    phone := p.phone
    email := p.email
    category := p.category
    notes := p.notes
    register_date := p.register_date
    created_at := now
    updated_at := now
    is_deleted := false
    deleted_at := none }

/-- Embedding of `Database.add_password`: insert the core fields (SQLite raises an
`IntegrityError` when a `NOT NULL` column receives `None`; an empty string
satisfies `NOT NULL`), then save custom-field values when the dict is
non-empty (`if password.custom_fields:`); return the new row id. -/
def add_password (db : DBState) (now : Nat) (p : Password)
    (fault : Option SqlError) : Except SqlError (DBState × Nat) :=
  match fault with
  | some e => .error e
  | none =>
    if p.site_name = none ∨ p.password = none then
      .error (.integrityError "NOT NULL constraint failed: passwords")
    else
      let pid := db.next_password_id
      let vals :=
        if p.custom_fields.isEmpty then db.custom_field_values
        else save_custom_field_values db.custom_field_definitions
          db.custom_field_values pid p.custom_fields
      .ok ({ db with
              passwords := db.passwords ++ [insertedRow pid now p],
              custom_field_values := vals,
              next_password_id := pid + 1 }, pid)

/-- From `Database._record_modifications`: the fixed list of trackable fields
(attribute accessor paired with the display label written to the history
table). -/
def fields_to_check : List ((Password → Option String) × String) :=
  [(Password.site_name, "网站名称"),
   (Password.url, "网址"),
   (Password.login_account, "登录账号"),
   (Password.password, "密码"),
   (Password.phone, "手机号"),
   (Password.email, "邮箱"),
   (Password.category, "分类"),
   (Password.notes, "备注"),
   (Password.register_date, "注册时间")]

/-- Embedding of `Database._record_modifications`: one history row per changed
trackable field (`old_value or ''` / `new_value or ''`). -/
def record_modifications (now password_id : Nat) (old_pwd new_pwd : Password) :
    List ModificationRow :=
  fields_to_check.foldl (fun acc fd =>
    let old_value := fd.1 old_pwd
    let new_value := fd.1 new_pwd
    if old_value ≠ new_value then
      acc ++ [⟨password_id, fd.2, old_value.getD "", new_value.getD "", now⟩]
    else acc) []

/-- Embedding of `Database.update_password`: update every core field of the rows whose
`id` matches (`UPDATE ... WHERE id = ?`; a `None` id matches no row),
refresh `updated_at`; append history rows when an old snapshot is given;
when the supplied custom-field dict is non-empty, delete all value rows of
the record and re-insert the supplied ones. -/
def update_password (db : DBState) (now : Nat) (p : Password)
    (old_password : Option Password) (fault : Option SqlError) :
    Except SqlError DBState :=
  match fault with
  | some e => .error e
  | none =>
    if p.site_name = none ∨ p.password = none then
      .error (.integrityError "NOT NULL constraint failed: passwords")
    else
      let db := { db with
        passwords := db.passwords.map (fun r =>
          if some r.id = p.id then
            { r with
                site_name := p.site_name.getD ""
                url := p.url
                login_account := p.login_account
                password := p.password.getD ""
                phone := p.phone
                email := p.email
                category := p.category
                notes := p.notes
                register_date := p.register_date
                updated_at := now }
          else r) }
      let db := match old_password with
        | some old => { db with
            modification_history := db.modification_history ++
              record_modifications now (p.id.getD 0) old p }
        | none => db
      let db :=
        if p.custom_fields.isEmpty then db
        else
          let remaining := db.custom_field_values.filter
            (fun v => ¬ some v.password_id = p.id)
          { db with custom_field_values :=
              (save_custom_field_values db.custom_field_definitions
                remaining (p.id.getD 0) p.custom_fields) }
      .ok db

/-- Embedding of `Database.delete_password`: soft delete flips `is_deleted` and stamps
`deleted_at`; physical delete removes the row.  (The source relies on
`ON DELETE CASCADE` declarations, but `sqlite3` leaves foreign-key
enforcement off, so only the `passwords` row is removed.) -/
def delete_password (db : DBState) (now password_id : Nat)
    (soft_delete : Bool) (fault : Option SqlError) : Except SqlError DBState :=
  match fault with
  | some e => .error e
  | none =>
    if soft_delete then
      .ok { db with passwords := db.passwords.map (fun r =>
        if r.id = password_id then
          { r with is_deleted := true, deleted_at := some now }
        else r) }
    else
      .ok { db with passwords :=
        db.passwords.filter (fun r => ¬ r.id = password_id) }

/-- Embedding of `Database.restore_password`: clear `is_deleted` and `deleted_at`. -/
def restore_password (db : DBState) (password_id : Nat)
    (fault : Option SqlError) : Except SqlError DBState :=
  match fault with
  | some e => .error e
  | none =>
    .ok { db with passwords := db.passwords.map (fun r =>
      if r.id = password_id then
        { r with is_deleted := false, deleted_at := none }
      else r) }

/-- Clause `ORDER BY created_at DESC`, modelled as the stable descending sort. -/
def sortByCreatedDesc (rows : List PasswordRow) : List PasswordRow :=
  rows.insertionSort (fun a b => b.created_at ≤ a.created_at)

/-- Sort key for `ORDER BY deleted_at DESC` (`NULL` sorts below every
timestamp in SQLite). -/
def deletedKey (r : PasswordRow) : Nat :=
  match r.deleted_at with
  | none => 0
  | some t => t + 1

/-- Embedding of `Database.get_all_passwords`: active rows only (or all), ordered by
creation time descending.  (The source also joins each row's custom-field
values into the returned object; the claims only consult row columns.) -/
def get_all_passwords (db : DBState) (include_deleted : Bool) :
    List PasswordRow :=
  if include_deleted then sortByCreatedDesc db.passwords
  else sortByCreatedDesc (db.passwords.filter (fun r => !r.is_deleted))

/-- Embedding of `Database.get_deleted_passwords`: recycle-bin rows, ordered by
deletion time descending. -/
def get_deleted_passwords (db : DBState) : List PasswordRow :=
  (db.passwords.filter (fun r => r.is_deleted)).insertionSort
    (fun a b => deletedKey b ≤ deletedKey a)

/-- SQLite `LIKE` is case-insensitive on the ASCII range; `col LIKE
'%kw%'` on a `NULL` column is not a match.  Wildcard characters inside the
keyword are not modelled. -/
def likeCol (col : Option String) (keyword : String) : Bool :=
  match col with
  | none => false
  | some s => containsStr (pyLower s) (pyLower keyword)

/-- The six-column `OR` of `Database.search_passwords`'s `WHERE` clause. -/
def likeAnyColumn (r : PasswordRow) (keyword : String) : Bool :=
  likeCol (some r.site_name) keyword || likeCol r.login_account keyword ||
  likeCol r.email keyword || likeCol r.phone keyword ||
  likeCol r.notes keyword || likeCol r.url keyword

/-- Embedding of `Database.search_passwords` (storage-layer LIKE search).  The body is
wrapped in `try: ... except Exception: logger.error(...); return []`, so a
storage failure is swallowed and an empty list is returned in its place. -/
def search_passwords_store (db : DBState) (keyword : String)
    (include_deleted : Bool) (fault : Option SqlError) : List PasswordRow :=
  match fault with
  | some _ => []
  | none =>
    if include_deleted then
      sortByCreatedDesc (db.passwords.filter (fun r => likeAnyColumn r keyword))
    else
      sortByCreatedDesc (db.passwords.filter
        (fun r => likeAnyColumn r keyword && !r.is_deleted))

/-- Embedding of `Database.filter_by_category` (exact-name match).  Same
`except Exception: return []` shape as the storage-layer search. -/
def filter_by_category_store (db : DBState) (category : String)
    (include_deleted : Bool) (fault : Option SqlError) : List PasswordRow :=
  match fault with
  | some _ => []
  | none =>
    if include_deleted then
      sortByCreatedDesc (db.passwords.filter
        (fun r => r.category == some category))
    else
      sortByCreatedDesc (db.passwords.filter
        (fun r => r.category == some category && !r.is_deleted))

/-- Embedding of `Database.get_category_usage_count`: active (non-deleted) rows whose
`category` column equals the name by string equality. -/
def get_category_usage_count (db : DBState) (category_name : String) : Nat :=
  (db.passwords.filter
    (fun p => p.category == some category_name && !p.is_deleted)).length

/-- Embedding of `Database.delete_category`: `False` when the id does not exist or when
the active usage count of the category's name is positive; otherwise
delete the row and return `True`.  (The `is_default` flag is never
consulted here.) -/
def delete_category (db : DBState) (category_id : Nat)
    (fault : Option SqlError) : Except SqlError (DBState × Bool) :=
  match fault with
  | some e => .error e
  | none =>
    match db.categories.find? (fun c => c.id == category_id) with
    | none => .ok (db, false)
    | some row =>
      let category_name := row.name
      let count := get_category_usage_count db category_name
      if 0 < count then .ok (db, false)
      else
        .ok ({ db with categories :=
          db.categories.filter (fun c => ¬ c.id = category_id) }, true)

/-! ### Import validation (`src/core/data_handler.py`) -/

/-- One parsed import row.  The parsers produce loosely-typed dicts; the
two required keys are modelled as `Option String` (`none` for a missing
key), the remaining payload is opaque for validation. -/
structure ImportRow where
  site_name : Option String := none
  password : Option String := none
  rest : List (String × String) := []
deriving DecidableEq, Repr

/-- Python truthiness of `item.get(key)` for a string-valued key: a
missing key (`None`) and the empty string are falsy. -/
def truthy : Option String → Bool
  | none => false
  | some s => s ≠ ""

/-- The error message `f"第 {idx} 条：缺少网站名称"`. -/
def missingSiteMsg (idx : Nat) : String :=
  "第 " ++ toString idx ++ " 条：缺少网站名称"

/-- The error message `f"第 {idx} 条：缺少密码"`. -/
def missingPwdMsg (idx : Nat) : String :=
  "第 " ++ toString idx ++ " 条：缺少密码"

/-- Loop of `DataHandler.validate_import_data`, carrying the 1-based
`enumerate` counter. -/
def validateAux : Nat → List ImportRow → List ImportRow × List String
  | _, [] => ([], [])
  | idx, item :: rest =>
    let tail := validateAux (idx + 1) rest
    if !truthy item.site_name then (tail.1, missingSiteMsg idx :: tail.2)
    else if !truthy item.password then (tail.1, missingPwdMsg idx :: tail.2)
    else (item :: tail.1, tail.2)

/-- Embedding of `DataHandler.validate_import_data`: split the parsed rows into the
valid ones and one error message per rejected row. -/
def validate_import_data (data : List ImportRow) :
    List ImportRow × List String :=
  validateAux 1 data

/-! ### Concrete fixtures used by witnesses and counterexamples -/

/-- An empty, freshly initialised store. -/
def exDbEmpty : DBState := {}

/-- A seeded default category (from `CategoryConfig.DEFAULT_CATEGORIES`). -/
def exCatDefault : CategoryRow :=
  { id := 1, name := "其他", color := some "#999999", sort_order := some 6,
    is_default := true }

/-- A store whose only category is an unused default category. -/
def exDbCat : DBState := { categories := [exCatDefault] }

/-- A record object whose site name is the empty string. -/
def exEmptySiteP : Password :=
  { site_name := some "", password := some "secret123" }

/-- A stored credential row matched by the keyword `"git"` and the
category `"工作"`. -/
def exRowGit : PasswordRow :=
  { id := 1, site_name := "GitHub", password := "x",
    category := some "工作", created_at := 5 }

/-- A one-row store for the storage-layer search claims. -/
def exDbSearch : DBState := { passwords := [exRowGit], next_password_id := 2 }

/-- A representative storage failure. -/
def exIOErr : SqlError := .operationalError "disk I/O error"

/-- A custom-field definition named `"pin"`. -/
def exFieldDef : CustomFieldRow := { id := 1, field_name := "pin" }

/-- An existing custom-field value row for record 1. -/
def exValRow : CustomFieldValueRow :=
  { password_id := 1, field_id := 1, value := "1234" }

/-- The stored row that the update-claim fixtures modify. -/
def exRowForUpdate : PasswordRow := { id := 1, site_name := "a", password := "b" }

/-- A store holding one record with one custom-field value. -/
def exDbUpd : DBState :=
  { passwords := [exRowForUpdate],
    custom_field_definitions := [exFieldDef],
    custom_field_values := [exValRow],
    next_password_id := 2 }

/-- An update payload whose custom-field dict is empty. -/
def exUpdEmptyCF : Password :=
  { id := some 1, site_name := some "a", password := some "b",
    custom_fields := [] }

/-- An update payload supplying one custom-field value. -/
def exUpdOneCF : Password :=
  { id := some 1, site_name := some "a", password := some "b",
    custom_fields := [("pin", "9999")] }

/-- The row of `exDbUpd` after applying `exUpdOneCF` at time 9. -/
def exRowUpdated : PasswordRow :=
  { id := 1, site_name := "a", url := some "", login_account := some "",
    password := "b", phone := some "", email := some "",
    category := some "", notes := some "", register_date := none,
    created_at := 0, updated_at := 9, is_deleted := false,
    deleted_at := none }

/-- The store after applying `exUpdOneCF` to `exDbUpd` at time 9. -/
def exDbUpdDone : DBState :=
  { passwords := [exRowUpdated],
    custom_field_definitions := [exFieldDef],
    custom_field_values := [⟨1, 1, "9999"⟩],
    next_password_id := 2 }

/-- The row used by the soft-delete/restore witness. -/
def exRowSoft : PasswordRow :=
  { id := 1, site_name := "s", password := "p", created_at := 3 }

/-- A one-row store for the soft-delete/restore witness. -/
def exDbSoft : DBState := { passwords := [exRowSoft], next_password_id := 2 }

/-- Store `exDbSoft` after a soft delete at time 9. -/
def exDbSoftDel : DBState :=
  { passwords := [{ exRowSoft with is_deleted := true, deleted_at := some 9 }],
    next_password_id := 2 }

/-- A record whose site name is `"GitHub"`, for the engine-search witness. -/
def exPwdGithub : Password := { site_name := some "GitHub", password := some "x" }

/-! ## Theorems -/

/-- One iteration of the scoring loop adds exactly the specification's
per-field contribution. -/
theorem scoreStep_eq (keyword : String) (score : Nat) (kv : String × String) :
    scoreStep keyword score kv =
      score + specFieldScore keyword kv.2 (weightOf kv.1) := by
  unfold scoreStep specFieldScore
  dsimp only
  split_ifs <;> omega

/-- C5: for every record and keyword, the relevance score equals the sum
over the six fields site name (weight 10), login account (8), email (7),
phone (6), URL (5), notes (3) of the specification's per-field
contribution (exact match `weight * 10`, prefix `weight * 5`, substring
`weight * 3`, fuzzy `weight * 1`, otherwise 0; empty fields contribute
0). -/
theorem relevance_score_is_weighted_sum (p : Password) (keyword : String) :
    calculate_relevance_score p keyword =
      specFieldScore keyword (p.site_name.getD "") 10 +
      specFieldScore keyword (p.login_account.getD "") 8 +
      specFieldScore keyword (p.email.getD "") 7 +
      specFieldScore keyword (p.phone.getD "") 6 +
      specFieldScore keyword (p.url.getD "") 5 +
      specFieldScore keyword (p.notes.getD "") 3 := by
  have hw1 : weightOf "site_name" = 10 := rfl
  have hw2 : weightOf "login_account" = 8 := rfl
  have hw3 : weightOf "email" = 7 := rfl
  have hw4 : weightOf "phone" = 6 := rfl
  have hw5 : weightOf "url" = 5 := rfl
  have hw6 : weightOf "notes" = 3 := rfl
  simp only [calculate_relevance_score, scoreFields, List.foldl, scoreStep_eq,
    hw1, hw2, hw3, hw4, hw5, hw6]
  omega

/-- Every pair in the scored list carries its record's relevance score. -/
theorem scoredList_snd {passwords : List Password} {kw : String}
    {a : Password × Nat} (ha : a ∈ scoredList passwords kw) :
    a.2 = calculate_relevance_score a.1 kw := by
  simp only [scoredList, List.mem_filterMap] at ha
  obtain ⟨p, -, hp⟩ := ha
  split at hp
  · cases hp; rfl
  · cases hp

/-- Dropping the scores from the scored list leaves exactly the records
with a positive relevance score, in input order. -/
theorem scoredList_map_fst (passwords : List Password) (kw : String) :
    (scoredList passwords kw).map Prod.fst =
      passwords.filter (fun p => 0 < calculate_relevance_score p kw) := by
  induction passwords with
  | nil => rfl
  | cons p ps ih =>
    simp only [scoredList, List.filterMap_cons] at ih ⊢
    by_cases h : 0 < calculate_relevance_score p kw <;>
      simp [h, List.filter_cons, ih]

/-- C6: the engine search returns the input unchanged when the normalized
keyword is shorter than the minimum length; otherwise it returns the
records with positive relevance score, stably sorted by score descending
(`List.insertionSort` under `score b ≤ score a` is that stable sort),
truncated to at most `MAX_RESULTS` (100) results, and the output is
sorted by score descending. -/
theorem engine_search_characterization (passwords : List Password)
    (keyword : String) :
    ((pyLower (pyStrip keyword)).length < MIN_KEYWORD_LENGTH →
      search_passwords_engine passwords keyword = passwords) ∧
    (MIN_KEYWORD_LENGTH ≤ (pyLower (pyStrip keyword)).length →
      search_passwords_engine passwords keyword =
        ((passwords.filter (fun p =>
            0 < calculate_relevance_score p (pyLower (pyStrip keyword)))).insertionSort
          (fun a b =>
            calculate_relevance_score b (pyLower (pyStrip keyword)) ≤
            calculate_relevance_score a (pyLower (pyStrip keyword)))).take
          MAX_RESULTS ∧
      (search_passwords_engine passwords keyword).length ≤ MAX_RESULTS ∧
      (search_passwords_engine passwords keyword).Sorted (fun a b =>
        calculate_relevance_score b (pyLower (pyStrip keyword)) ≤
        calculate_relevance_score a (pyLower (pyStrip keyword)))) := by
  constructor
  · intro h
    unfold search_passwords_engine
    by_cases hk : keyword = ""
    · rw [if_pos hk]
    · rw [if_neg hk]
      dsimp only
      rw [if_pos h]
  · intro h
    have hk : ¬ keyword = "" := by
      intro he
      subst he
      exact absurd h (by decide)
    have hmain : search_passwords_engine passwords keyword =
        ((passwords.filter (fun p =>
            0 < calculate_relevance_score p (pyLower (pyStrip keyword)))).insertionSort
          (fun a b =>
            calculate_relevance_score b (pyLower (pyStrip keyword)) ≤
            calculate_relevance_score a (pyLower (pyStrip keyword)))).take
          MAX_RESULTS := by
      unfold search_passwords_engine
      rw [if_neg hk]
      dsimp only
      rw [if_neg (not_lt.mpr h)]
      rw [List.map_insertionSort (fun a b : Password × Nat => b.2 ≤ a.2)
        (fun a b : Password =>
          calculate_relevance_score b (pyLower (pyStrip keyword)) ≤
          calculate_relevance_score a (pyLower (pyStrip keyword)))
        Prod.fst (scoredList passwords (pyLower (pyStrip keyword)))
        (fun a ha b hb => by
          show b.2 ≤ a.2 ↔ _
          rw [scoredList_snd ha, scoredList_snd hb])]
      rw [scoredList_map_fst]
    refine ⟨hmain, ?_, ?_⟩
    · rw [hmain]
      exact List.length_take_le _ _
    · rw [hmain]
      haveI : IsTotal Password (fun a b =>
          calculate_relevance_score b (pyLower (pyStrip keyword)) ≤
          calculate_relevance_score a (pyLower (pyStrip keyword))) :=
        ⟨fun a b => Nat.le_total _ _⟩
      haveI : IsTrans Password (fun a b =>
          calculate_relevance_score b (pyLower (pyStrip keyword)) ≤
          calculate_relevance_score a (pyLower (pyStrip keyword))) :=
        ⟨fun _ _ _ hab hbc => le_trans hbc hab⟩
      exact List.Pairwise.sublist (List.take_sublist _ _)
        (List.sorted_insertionSort _ _)

/-- Witness for C6 at a short keyword and at the keyword `"git"`. -/
theorem engine_search_characterization_witness :
    search_passwords_engine [exPwdGithub] "   " = [exPwdGithub] ∧
    search_passwords_engine [exPwdGithub] "git" =
      (([exPwdGithub].filter (fun p =>
          0 < calculate_relevance_score p (pyLower (pyStrip "git")))).insertionSort
        (fun a b =>
          calculate_relevance_score b (pyLower (pyStrip "git")) ≤
          calculate_relevance_score a (pyLower (pyStrip "git")))).take
        MAX_RESULTS :=
  ⟨(engine_search_characterization [exPwdGithub] "   ").1 (by decide),
   ((engine_search_characterization [exPwdGithub] "git").2 (by decide)).1⟩

/-- C7: for non-empty inputs, `match_domain` is true exactly when the
normalized domains are identical or one ends with `"."` followed by the
other; and the three documented examples hold. -/
theorem match_domain_characterization (a b : String)
    (ha : a ≠ "") (hb : b ≠ "") :
    (match_domain a b = true ↔
      (normalize_domain a = normalize_domain b ∨
       endsWithStr (normalize_domain a) ("." ++ normalize_domain b) = true ∨
       endsWithStr (normalize_domain b) ("." ++ normalize_domain a) = true)) ∧
    match_domain "google.com" "google.com.cn" = false ∧
    match_domain "mail.google.com" "google.com" = true ∧
    match_domain "www.example.com" "example.com" = true := by
  refine ⟨?_, by decide, by decide, by decide⟩
  unfold match_domain
  rw [if_neg (by push_neg; exact ⟨ha, hb⟩)]
  by_cases h1 : normalize_domain a = normalize_domain b
  · simp [h1]
  · rw [if_neg h1]
    by_cases h2 : (endsWithStr (normalize_domain a) ("." ++ normalize_domain b) ||
        endsWithStr (normalize_domain b) ("." ++ normalize_domain a)) = true
    · rw [if_pos h2]
      simp only [Bool.or_eq_true] at h2
      rcases h2 with h2 | h2 <;> simp [h2]
    · rw [if_neg h2]
      simp only [Bool.or_eq_true] at h2
      push_neg at h2
      simp [h1, h2.1, h2.2]

/-- Witness for C7 at `"mail.google.com"` / `"google.com"`. -/
theorem match_domain_characterization_witness :
    match_domain "mail.google.com" "google.com" = true ↔
      (normalize_domain "mail.google.com" = normalize_domain "google.com" ∨
       endsWithStr (normalize_domain "mail.google.com")
         ("." ++ normalize_domain "google.com") = true ∨
       endsWithStr (normalize_domain "google.com")
         ("." ++ normalize_domain "mail.google.com") = true) :=
  (match_domain_characterization "mail.google.com" "google.com"
    (by decide) (by decide)).1

/-- C10: domain matching is symmetric in its two arguments. -/
theorem match_domain_symmetric (a b : String) :
    match_domain a b = match_domain b a := by
  by_cases ha : a = ""
  · simp [match_domain, ha]
  · by_cases hb : b = ""
    · simp [match_domain, hb]
    · have hab : ¬(a = "" ∨ b = "") := by tauto
      have hba : ¬(b = "" ∨ a = "") := by tauto
      by_cases h1 : normalize_domain a = normalize_domain b
      · simp [match_domain, hab, hba, h1]
      · have h1' : ¬ normalize_domain b = normalize_domain a :=
          fun hh => h1 hh.symm
        simp only [match_domain, if_neg hab, if_neg hba, if_neg h1, if_neg h1']
        rw [Bool.or_comm]

/-- Sorting by creation time permutes the rows, so membership is
unchanged. -/
theorem mem_sortByCreatedDesc {r : PasswordRow} {l : List PasswordRow} :
    r ∈ sortByCreatedDesc l ↔ r ∈ l := by
  simp [sortByCreatedDesc]

/-- The validation loop, for an arbitrary starting `enumerate` index:
the valid rows are exactly the filter, the errors are one per rejected
row tagged with its index, and every row is either kept or produces
exactly one error. -/
theorem validateAux_spec (l : List ImportRow) : ∀ n : Nat,
    (validateAux n l).1 =
      l.filter (fun r => truthy r.site_name && truthy r.password) ∧
    (validateAux n l).2 =
      (List.enumFrom n l).filterMap (fun ir =>
        if truthy ir.2.site_name then
          (if truthy ir.2.password then none else some (missingPwdMsg ir.1))
        else some (missingSiteMsg ir.1)) ∧
    (validateAux n l).1.length + (validateAux n l).2.length = l.length := by
  induction l with
  | nil => exact fun n => ⟨rfl, rfl, rfl⟩
  | cons item rest ih =>
    intro n
    obtain ⟨ih1, ih2, ih3⟩ := ih (n + 1)
    rw [ih1, ih2] at ih3
    by_cases hs : truthy item.site_name
    · by_cases hp : truthy item.password
      · refine ⟨?_, ?_, ?_⟩ <;>
          · simp [validateAux, hs, hp, List.filter_cons, List.enumFrom,
              ih1, ih2]
            try omega
      · refine ⟨?_, ?_, ?_⟩ <;>
          · simp [validateAux, hs, hp, List.filter_cons, List.enumFrom,
              ih1, ih2]
            try omega
    · refine ⟨?_, ?_, ?_⟩ <;>
        · simp [validateAux, hs, List.filter_cons, List.enumFrom,
            ih1, ih2]
          try omega

/-- C9: `validate_import_data` keeps exactly the rows with a truthy
`site_name` and a truthy `password`, in input order; every rejected row
yields exactly one error message carrying its 1-based position (a missing
or empty `site_name` takes precedence over the password check); valid
rows and errors together account for every input row. -/
theorem validate_import_data_characterization (data : List ImportRow) :
    (validate_import_data data).1 =
      data.filter (fun r => truthy r.site_name && truthy r.password) ∧
    (validate_import_data data).2 =
      (List.enumFrom 1 data).filterMap (fun ir =>
        if truthy ir.2.site_name then
          (if truthy ir.2.password then none else some (missingPwdMsg ir.1))
        else some (missingSiteMsg ir.1)) ∧
    (validate_import_data data).1.length +
      (validate_import_data data).2.length = data.length :=
  validateAux_spec data 1

/-- Counterexample for C3: a storage failure during the storage-layer
keyword search or category filter is swallowed, and the empty list is
returned exactly as if the store held no matching rows — the same inputs
return a non-empty result when no failure occurs. -/
theorem store_reads_swallow_errors_counterexample :
    search_passwords_store exDbSearch "git" false none = [exRowGit] ∧
    search_passwords_store exDbSearch "git" false (some exIOErr) = [] ∧
    filter_by_category_store exDbSearch "工作" false none = [exRowGit] ∧
    filter_by_category_store exDbSearch "工作" false (some exIOErr) = [] :=
  ⟨rfl, rfl, rfl, rfl⟩

/-- C3 (amended): every mutating store operation re-raises a storage
failure with the state rolled back, but the storage-layer
`search_passwords` and `filter_by_category` catch the failure and return
an empty list as a normal result. -/
theorem storage_failure_propagation (db : DBState) (e : SqlError)
    (kw cat : String) (inc : Bool) (now pid cid : Nat) (p : Password)
    (old : Option Password) (soft : Bool) :
    search_passwords_store db kw inc (some e) = [] ∧
    filter_by_category_store db cat inc (some e) = [] ∧
    add_password db now p (some e) = .error e ∧
    update_password db now p old (some e) = .error e ∧
    delete_password db now pid soft (some e) = .error e ∧
    restore_password db pid (some e) = .error e ∧
    delete_category db cid (some e) = .error e :=
  ⟨rfl, rfl, rfl, rfl, rfl, rfl, rfl⟩

/-- Counterexample for C1: an unused default category (`is_default` set)
is deleted and `delete_category` returns `True` — the `is_default` guard
claimed by the specification does not exist at the store layer. -/
theorem delete_category_default_counterexample :
    exCatDefault.is_default = true ∧
    get_category_usage_count exDbCat exCatDefault.name = 0 ∧
    delete_category exDbCat 1 none = .ok ({ exDbCat with categories := [] }, true) :=
  ⟨rfl, rfl, rfl⟩

/-- C1 (amended): for every category id, `delete_category` returns
`False` (never an exception) when the id is absent or when the count of
active credential rows whose `category` equals the category's name is
positive; otherwise it removes the category row and returns `True`,
regardless of the `is_default` flag. -/
theorem delete_category_guard (db : DBState) (cid : Nat) :
    (db.categories.find? (fun c => c.id == cid) = none →
      delete_category db cid none = .ok (db, false)) ∧
    (∀ row, db.categories.find? (fun c => c.id == cid) = some row →
      (0 < get_category_usage_count db row.name →
        delete_category db cid none = .ok (db, false)) ∧
      (get_category_usage_count db row.name = 0 →
        delete_category db cid none =
          .ok ({ db with categories :=
            db.categories.filter (fun c => ¬ c.id = cid) }, true))) := by
  refine ⟨fun hf => ?_, fun row hf => ⟨fun hc => ?_, fun hc => ?_⟩⟩
  · simp [delete_category, hf]
  · simp [delete_category, hf, hc]
  · simp [delete_category, hf, hc]

/-- Witness for C1 at a store whose only category is unused. -/
theorem delete_category_guard_witness :
    delete_category exDbCat 1 none =
      .ok ({ exDbCat with categories :=
        exDbCat.categories.filter (fun c => ¬ c.id = 1) }, true) :=
  ((delete_category_guard exDbCat 1).2 exCatDefault rfl).2 rfl

/-- Counterexample for C2: a record whose site name is the empty string
is persisted by `add_password` without error and is observable through
`get_all_passwords` — no emptiness validation happens at the store layer
(SQLite's `NOT NULL` only rejects `None`). -/
theorem add_password_empty_site_counterexample :
    exEmptySiteP.site_name = some "" ∧
    (add_password exDbEmpty 7 exEmptySiteP none).map
      (fun x => (get_all_passwords x.1 false).map (fun r => r.site_name)) =
      .ok [""] :=
  ⟨rfl, rfl⟩

/-- C2 (amended): `add_password` fails exactly when the site name or the
secret is `None` (the `NOT NULL` constraint); any record whose site name
and secret are present strings — including empty strings — is persisted
and observable in the store afterwards with those exact values. -/
theorem add_password_null_check (db : DBState) (now : Nat) (p : Password) :
    (p.site_name = none ∨ p.password = none →
      add_password db now p none =
        .error (.integrityError "NOT NULL constraint failed: passwords")) ∧
    (∀ sn pw, p.site_name = some sn → p.password = some pw →
      ∃ db', add_password db now p none = .ok (db', db.next_password_id) ∧
        ∃ r ∈ get_all_passwords db' false, r.id = db.next_password_id ∧
          r.site_name = sn ∧ r.password = pw) := by
  constructor
  · intro h
    simp [add_password, h]
  · intro sn pw hsn hpw
    have hcond : ¬(p.site_name = none ∨ p.password = none) := by
      simp [hsn, hpw]
    refine ⟨{ db with
        passwords := db.passwords ++ [insertedRow db.next_password_id now p],
        custom_field_values :=
          (if p.custom_fields.isEmpty then db.custom_field_values
           else save_custom_field_values db.custom_field_definitions
             db.custom_field_values db.next_password_id p.custom_fields),
        next_password_id := db.next_password_id + 1 }, ?_, ?_⟩
    · simp [add_password, hcond]
    refine ⟨insertedRow db.next_password_id now p, ?_, rfl, ?_, ?_⟩
    · rw [get_all_passwords]
      rw [if_neg (by simp)]
      rw [mem_sortByCreatedDesc]
      refine List.mem_filter.mpr ⟨?_, rfl⟩
      exact List.mem_append_right _ (List.mem_singleton.mpr rfl)
    · simp [insertedRow, hsn]
    · simp [insertedRow, hpw]

/-- Witness for C2: an empty-string site name is accepted and stored. -/
theorem add_password_null_check_witness :
    ∃ db', add_password exDbEmpty 7 exEmptySiteP none =
        .ok (db', exDbEmpty.next_password_id) ∧
      ∃ r ∈ get_all_passwords db' false, r.id = exDbEmpty.next_password_id ∧
        r.site_name = "" ∧ r.password = "secret123" :=
  (add_password_null_check exDbEmpty 7 exEmptySiteP).2 "" "secret123" rfl rfl

/-- Saving custom-field values appends, after the existing rows, one
value row per supplied name that has a matching field definition, in
supplied order; names without a definition are silently skipped. -/
theorem save_custom_field_values_eq (defs : List CustomFieldRow)
    (pid : Nat) (cfs : List (String × String)) :
    ∀ vals, save_custom_field_values defs vals pid cfs =
      vals ++ cfs.filterMap (fun nv =>
        (defs.find? (fun d => d.field_name == nv.1)).map
          (fun d => ⟨pid, d.id, nv.2⟩)) := by
  induction cfs with
  | nil => intro vals; simp [save_custom_field_values]
  | cons nv rest ih =>
    intro vals
    simp only [save_custom_field_values, List.foldl_cons, List.filterMap_cons]
    cases hfind : defs.find? (fun d => d.field_name == nv.1) with
    | none =>
      simpa [save_custom_field_values, hfind] using ih vals
    | some d =>
      have := ih (vals ++ [⟨pid, d.id, nv.2⟩])
      simp only [save_custom_field_values] at this
      simp [hfind, this, List.append_assoc]

/-- Counterexample for C4: updating a record while supplying an empty
custom-field set leaves the record's previously stored custom-field value
rows untouched, instead of deleting them. -/
theorem update_empty_custom_fields_counterexample :
    exUpdEmptyCF.custom_fields = [] ∧
    (update_password exDbUpd 9 exUpdEmptyCF none none).map
      (fun d => d.custom_field_values) = .ok [exValRow] :=
  ⟨rfl, rfl⟩

/-- C4 (amended): for every existing record, `update_password` replaces
the record's custom-field-value rows with the supplied set — restricted
to names with a matching field definition, other records' rows untouched
— whenever the supplied set is non-empty; when the supplied set is empty
the previously stored value rows are left unchanged. -/
theorem update_password_custom_fields (db : DBState) (now : Nat)
    (p : Password) (old : Option Password) (pid : Nat)
    (hid : p.id = some pid) (hsn : p.site_name ≠ none)
    (hpw : p.password ≠ none) :
    ∀ db', update_password db now p old none = .ok db' →
      ((p.custom_fields = [] →
          db'.custom_field_values = db.custom_field_values) ∧
       (p.custom_fields ≠ [] →
          db'.custom_field_values =
            db.custom_field_values.filter (fun v => v.password_id ≠ pid) ++
            p.custom_fields.filterMap (fun nv =>
              (db.custom_field_definitions.find?
                (fun d => d.field_name == nv.1)).map
                (fun d => ⟨pid, d.id, nv.2⟩))) ∧
       (p.custom_fields ≠ [] →
          db'.custom_field_values.filter (fun v => v.password_id = pid) =
            p.custom_fields.filterMap (fun nv =>
              (db.custom_field_definitions.find?
                (fun d => d.field_name == nv.1)).map
                (fun d => ⟨pid, d.id, nv.2⟩)))) := by
  intro db' hupd
  have hcond : ¬(p.site_name = none ∨ p.password = none) := by
    simp [hsn, hpw]
  have hfilter : db.custom_field_values.filter
        (fun v => ¬ some v.password_id = p.id) =
      db.custom_field_values.filter (fun v => v.password_id ≠ pid) := by
    apply List.filter_congr
    intro v _
    simp [hid]
  have hnew : ∀ x ∈ p.custom_fields.filterMap (fun nv =>
      (db.custom_field_definitions.find?
        (fun d => d.field_name == nv.1)).map
        (fun d => (⟨pid, d.id, nv.2⟩ : CustomFieldValueRow))),
      x.password_id = pid := by
    intro x hx
    simp only [List.mem_filterMap] at hx
    obtain ⟨nv, -, hx⟩ := hx
    cases hfind : db.custom_field_definitions.find?
        (fun d => d.field_name == nv.1) with
    | none => rw [hfind] at hx; cases hx
    | some d => rw [hfind] at hx; cases hx; rfl
  rcases old with _ | oldp
  · by_cases hcf : p.custom_fields = []
    · simp only [update_password, if_neg hcond, hcf, List.isEmpty_nil,
        if_pos, Except.ok.injEq] at hupd
      subst hupd
      refine ⟨fun _ => rfl, fun hne => absurd hcf hne, fun hne => absurd hcf hne⟩
    · have hcf' : p.custom_fields.isEmpty = false := by
        simpa [List.isEmpty_iff] using hcf
      simp only [update_password, if_neg hcond, hcf', Bool.false_eq_true,
        if_false, Except.ok.injEq] at hupd
      subst hupd
      refine ⟨fun h => absurd h hcf, fun _ => ?_, fun _ => ?_⟩
      · rw [save_custom_field_values_eq, hfilter, hid]
        simp
      · rw [save_custom_field_values_eq, hfilter, hid]
        rw [List.filter_append]
        rw [List.filter_eq_nil_iff.mpr, List.filter_eq_self.mpr]
        · simp
        · intro a ha
          simpa using hnew a ha
        · intro a ha
          have := (List.mem_filter.mp ha).2
          simp only [decide_eq_true_eq] at this ⊢
          omega
  · by_cases hcf : p.custom_fields = []
    · simp only [update_password, if_neg hcond, hcf, List.isEmpty_nil,
        if_pos, Except.ok.injEq] at hupd
      subst hupd
      refine ⟨fun _ => rfl, fun hne => absurd hcf hne, fun hne => absurd hcf hne⟩
    · have hcf' : p.custom_fields.isEmpty = false := by
        simpa [List.isEmpty_iff] using hcf
      simp only [update_password, if_neg hcond, hcf', Bool.false_eq_true,
        if_false, Except.ok.injEq] at hupd
      subst hupd
      refine ⟨fun h => absurd h hcf, fun _ => ?_, fun _ => ?_⟩
      · rw [save_custom_field_values_eq, hfilter, hid]
        simp
      · rw [save_custom_field_values_eq, hfilter, hid]
        rw [List.filter_append]
        rw [List.filter_eq_nil_iff.mpr, List.filter_eq_self.mpr]
        · simp
        · intro a ha
          simpa using hnew a ha
        · intro a ha
          have := (List.mem_filter.mp ha).2
          simp only [decide_eq_true_eq] at this ⊢
          omega

/-- Witness for C4 at a one-record store with one custom-field value. -/
theorem update_password_custom_fields_witness :
    exDbUpdDone.custom_field_values.filter (fun v => v.password_id = 1) =
      exUpdOneCF.custom_fields.filterMap (fun nv =>
        (exDbUpd.custom_field_definitions.find?
          (fun d => d.field_name == nv.1)).map
          (fun d => ⟨1, d.id, nv.2⟩)) :=
  ((update_password_custom_fields exDbUpd 9 exUpdOneCF none 1 rfl
    (by simp [exUpdOneCF]) (by simp [exUpdOneCF]) exDbUpdDone rfl).2.2
    (by simp [exUpdOneCF]))

/-- C8: for every stored record id, a soft delete removes the record from
the active listing and places it in the recycle-bin listing; a subsequent
restore returns it to the active listing with the deletion flag and
timestamp cleared. -/
theorem soft_delete_restore_roundtrip (db : DBState) (now pid : Nat)
    (hmem : ∃ r ∈ db.passwords, r.id = pid) :
    ∀ db1, delete_password db now pid true none = .ok db1 →
      ((∀ r ∈ get_all_passwords db1 false, r.id ≠ pid) ∧
       (∃ r ∈ get_deleted_passwords db1, r.id = pid) ∧
       ∀ db2, restore_password db1 pid none = .ok db2 →
         ((∃ r ∈ get_all_passwords db2 false, r.id = pid) ∧
          (∀ r ∈ get_all_passwords db2 false, r.id = pid →
            r.is_deleted = false ∧ r.deleted_at = none))) := by
  obtain ⟨r0, hr0, hr0id⟩ := hmem
  intro db1 hdel
  simp only [delete_password, if_pos, Except.ok.injEq] at hdel
  subst hdel
  refine ⟨?_, ?_, ?_⟩
  · intro r hr
    simp only [get_all_passwords, mem_sortByCreatedDesc, List.mem_filter,
      List.mem_map] at hr
    rw [if_neg (by simp)] at hr
    rw [mem_sortByCreatedDesc, List.mem_filter] at hr
    obtain ⟨hy', hact⟩ := hr
    obtain ⟨y, -, hy⟩ := List.mem_map.mp hy'
    intro hrid
    by_cases hyid : y.id = pid
    · rw [if_pos hyid] at hy
      subst hy
      simp at hact
    · rw [if_neg hyid] at hy
      subst hy
      exact hyid hrid
  · refine ⟨{ r0 with is_deleted := true, deleted_at := some now }, ?_, hr0id⟩
    simp only [get_deleted_passwords, List.mem_insertionSort, List.mem_filter,
      List.mem_map]
    refine ⟨⟨r0, hr0, ?_⟩, ?_⟩
    · simp [hr0id]
    · trivial
  · intro db2 hres
    simp only [restore_password, Except.ok.injEq] at hres
    subst hres
    constructor
    · refine ⟨{ r0 with is_deleted := false, deleted_at := none }, ?_, hr0id⟩
      rw [get_all_passwords, if_neg (by simp), mem_sortByCreatedDesc,
        List.mem_filter]
      refine ⟨?_, ?_⟩
      · refine List.mem_map.mpr
          ⟨{ r0 with is_deleted := true, deleted_at := some now }, ?_, ?_⟩
        · exact List.mem_map.mpr ⟨r0, hr0, by simp [hr0id]⟩
        · simp [hr0id]
      · trivial
    · intro r hr hrid
      rw [get_all_passwords, if_neg (by simp), mem_sortByCreatedDesc,
        List.mem_filter] at hr
      obtain ⟨hy', -⟩ := hr
      obtain ⟨y, -, hy⟩ := List.mem_map.mp hy'
      by_cases hyid : y.id = pid
      · rw [if_pos hyid] at hy
        subst hy
        exact ⟨rfl, rfl⟩
      · rw [if_neg hyid] at hy
        subst hy
        exact absurd hrid hyid

/-- Witness for C8 at a one-row store, deleting and restoring record 1. -/
theorem soft_delete_restore_roundtrip_witness :
    (∀ r ∈ get_all_passwords exDbSoftDel false, r.id ≠ 1) ∧
    (∃ r ∈ get_deleted_passwords exDbSoftDel, r.id = 1) ∧
    ∀ db2, restore_password exDbSoftDel 1 none = .ok db2 →
      ((∃ r ∈ get_all_passwords db2 false, r.id = 1) ∧
       (∀ r ∈ get_all_passwords db2 false, r.id = 1 →
         r.is_deleted = false ∧ r.deleted_at = none)) :=
  soft_delete_restore_roundtrip exDbSoft 9 1
    ⟨exRowSoft, by simp [exDbSoft], rfl⟩ exDbSoftDel rfl

end PM
